import Mathlib

/-!
Verification development for the task-dispatch and keep-alive code of the
repository (a "HeyGen clone" build orchestrator).

The dispatch pipeline lives in `orchestrate_claude_windows.sh`:
  * it exits with code 1 if `tasks/prompts.json` is absent;
  * a Python heredoc parses the JSON and writes a prompt file for each of the
    keys `task_1` .. `task_12` that is present (reading only the `prompt` and
    `title` fields of each entry); a parse failure exits the script with code 1;
  * a paste loop over `i in 1..12` sends the prompt of task `i` to the
    terminal window at 0-based index `i - 1`; the iteration is skipped when no
    prompt file exists for `i` or when `i - 1 >= WINDOW_COUNT`;
  * the script then reports "ORCHESTRATION COMPLETE" and exits with code 0.

The keep-alive monitors are `keep_alive.sh` (a loop bounded by a counter:
`COUNT=0; while [ $COUNT -lt 1800 ]; do ...; COUNT=$((COUNT + 2)); sleep 2;
done`, whose body sends an Enter keystroke to each of windows 1..12 that is
open) and `keep-alive-orchestrator.sh` (an unbounded `while true` loop whose
body sends an Enter keystroke to every window id captured at startup).

The definitions below embed these scripts; spec-side definitions (used to
state claims whose vocabulary does not occur in the scripts) are explicitly
marked as such in their doc comments.
-/

/-- Task status values of the spec's data model (§3).  The dispatcher script
never reads or writes a status; the field is carried by the data so that
claims about statuses can be stated, and the theorems below show the script's
behaviour is independent of it. -/
inductive TaskStatus where
  | pending
  | ready
  | assigned
  | running
  | completed
  | failed
deriving DecidableEq, Repr

/-- One entry of `prompts.json`.  The extraction step of
`orchestrate_claude_windows.sh` reads only `prompt` and `title`
(`task.get('prompt', '')`, `task.get('title', ...)`); a JSON object may carry
further fields such as a dependency list or a status, which the script
ignores.  They are included here so the claims, which speak about
dependencies and statuses, can be stated against the embedded script. -/
structure TaskEntry where
  prompt : String
  title : String
  dependencies : List Nat
  status : TaskStatus
deriving DecidableEq, Repr

/-- The task keys the extraction step looks for:
`task_keys = [f'task_{i}' for i in range(1, 13)]`, i.e. indices 1..12. -/
def taskKeys : List Nat := List.range' 1 12

/-- Dependency ids of task `i` as carried by the prompts data (empty when the
task is absent). -/
def depsOf (data : Nat → Option TaskEntry) (i : Nat) : List Nat :=
  ((data i).map TaskEntry.dependencies).getD []

/-- Status of task `i` as carried by the prompts data. -/
def statusOf (data : Nat → Option TaskEntry) (i : Nat) : Option TaskStatus :=
  (data i).map TaskEntry.status

/-- The paste loop of `orchestrate_claude_windows.sh` (lines 98-134): for
`i in 1..12`, skip when there is no prompt file for `i` (the file was written
iff `task_i` was present in the JSON) or when `i - 1 >= WINDOW_COUNT`;
otherwise paste the prompt of task `i` into the window whose id sits at
0-based index `i - 1` of the window-id array.  The result is the list of
(task index, window id) pairs actually dispatched, in loop order. -/
def dispatchList (data : Nat → Option TaskEntry) (windows : List Nat) :
    List (Nat × Nat) :=
  taskKeys.filterMap fun i =>
    match data i with
    | none => none
    | some _ =>
      match windows[i - 1]? with
      | none => none
      | some wid => some (i, wid)

/-- Task indices that get dispatched by the paste loop. -/
def dispatchedTasks (data : Nat → Option TaskEntry) (windows : List Nat) :
    List Nat :=
  (dispatchList data windows).map Prod.fst

/-- Task indices skipped by the paste loop with the "No window available"
message: a prompt file exists but `i - 1 >= WINDOW_COUNT`. -/
def skippedNoWindow (data : Nat → Option TaskEntry) (windows : List Nat) :
    List Nat :=
  taskKeys.filter fun i => (data i).isSome && windows.length ≤ i - 1

/-- Outcome of one run of `orchestrate_claude_windows.sh`: either an early
`exit 1`, or the script runs to its final "ORCHESTRATION COMPLETE" banner
(recording what was pasted and how many windows were found) and exits 0. -/
inductive RunResult where
  | exitFail (code : Nat)
  | complete (dispatched : List (Nat × Nat)) (windowCount : Nat)
deriving DecidableEq, Repr

/-- The whole script.  `promptsFile = none` models a missing
`tasks/prompts.json` (the `[ ! -f "$PROMPTS_JSON" ]` check, `exit 1`);
`some (Except.error e)` models the Python extraction failing (`sys.exit(1)`,
propagated as `exit 1`); `some (Except.ok data)` is a parsed prompts file,
after which the paste loop runs and the script reports completion. -/
def orchestrate (promptsFile : Option (Except String (Nat → Option TaskEntry)))
    (windows : List Nat) : RunResult :=
  match promptsFile with
  | none => RunResult.exitFail 1
  | some (Except.error _) => RunResult.exitFail 1
  | some (Except.ok data) =>
      RunResult.complete (dispatchList data windows) windows.length

/-- Process exit code of a run. -/
def exitCode : RunResult → Nat
  | RunResult.exitFail c => c
  | RunResult.complete _ _ => 0

/-- Whether the run reached the final "ORCHESTRATION COMPLETE" report. -/
def reportsComplete : RunResult → Bool
  | RunResult.exitFail _ => false
  | RunResult.complete _ _ => true

/-- The 30-minute keep-alive monitor (`keep_alive.sh`): `DURATION=1800;
COUNT=0; while [ $COUNT -lt 1800 ]; do <send Enter to windows 1..12>;
COUNT=$((COUNT + 2)); sleep 2; done`.  `keepAliveIters count` is the number
of loop iterations still performed when the counter currently holds
`count`; the whole run performs `keepAliveIters 0` iterations. -/
def keepAliveIters (count : Nat) : Nat :=
  if count < 1800 then keepAliveIters (count + 2) + 1 else 0
termination_by 1800 - count
decreasing_by omega

/-- Seconds slept per iteration of the keep-alive loops: the hard-coded
`sleep 2` of both `keep_alive.sh` and `keep-alive-orchestrator.sh`. -/
def keepAliveSleepInterval : Nat := 2

/-- Wall-clock seconds elapsed after `k` full iterations of a keep-alive
loop (each iteration ends in `sleep 2`). -/
def keepAliveElapsed : Nat → Nat
  | 0 => 0
  | k + 1 => keepAliveElapsed k + keepAliveSleepInterval

/-- The body of one iteration of `keep_alive.sh`: `for i in {1..12}`, and the
osascript sends an Enter keystroke to window `i` exactly when
`(count of windows) >= i`.  The window's heartbeat state plays no role: the
result is the list of window indices that receive the keystroke. -/
def monitorIteration (windowCount : Nat) : List Nat :=
  taskKeys.filter fun i => i ≤ windowCount

/-- The set of windows the `keep_alive.sh` loop body acts on, presented as a
function of the liveness data the spec says a health loop should consult
(per-agent `last_heartbeat`, the current time and the timeout).  The script
reads none of these inputs — its body is `monitorIteration windowCount`
unconditionally — which the theorems below exploit. -/
def monitorActions (windowCount : Nat) (lastHeartbeat : Nat → Nat)
    (now timeout : Nat) : List Nat :=
  monitorIteration windowCount

/-- One iteration of `keep-alive-orchestrator.sh`'s `while true` body applied
to a tally of Enter keystrokes received per window id: every window id in the
captured `WINDOW_ARRAY` receives one more keystroke. -/
def signalStep (windows : List Nat) (tally : Nat → Nat) : Nat → Nat :=
  fun w => if w ∈ windows then tally w + 1 else tally w

/-- Enter keystrokes received per window id after `k` iterations of
`keep-alive-orchestrator.sh`'s unbounded loop. -/
def signalsAfter (windows : List Nat) : Nat → Nat → Nat
  | 0 => fun _ => 0
  | k + 1 => signalStep windows (signalsAfter windows k)

/-- Spec-side definition, following the spec's words (§4.2): `is_stale(agent_id,
now, timeout)`: true iff `now - last_heartbeat > timeout`.  No such predicate
occurs anywhere in the scripts; it is stated here to compare the claims'
liveness condition with what the keep-alive loops actually do. -/
def specIsStale (now lastHeartbeat timeout : Nat) : Bool :=
  timeout < now - lastHeartbeat

/-- Spec-side constant, following the spec's words (§6): `max_restarts`
(int, default 5).  The keep-alive scripts keep no restart count. -/
def specMaxRestartsDefault : Nat := 5

/-- Spec-side constant, following the spec's words (§6):
`health_check_interval` (duration, default 10s).  The keep-alive scripts
hard-code `sleep 2`. -/
def specHealthCheckIntervalDefault : Nat := 10

/-- Dependency edge test on the prompts data: task `i` lists `j` among its
dependencies.  Used only to state the claims' cycle notion. -/
def dependsOn (data : Nat → Option TaskEntry) (i j : Nat) : Bool :=
  j ∈ depsOf data i

/-- Bounded reachability along dependency edges (fuel-indexed), used only to
state the claims' cycle notion over the 12-task key universe. -/
def reachableDep (data : Nat → Option TaskEntry) : Nat → Nat → Nat → Bool
  | 0, _, _ => false
  | fuel + 1, i, j =>
      dependsOn data i j ||
        (depsOf data i).any fun m => reachableDep data fuel m j

/-- A dependency cycle exists among the 12 task keys: some task reaches
itself along one or more dependency edges. -/
def hasCycle (data : Nat → Option TaskEntry) : Bool :=
  taskKeys.any fun i => reachableDep data 12 i i

/-- Marks task `j` as `failed` in the prompts data, leaving everything else
unchanged (the spec's "task X fails" event, applied to the data the
dispatcher sees). -/
def markFailed (data : Nat → Option TaskEntry) (j : Nat) :
    Nat → Option TaskEntry :=
  fun i =>
    if i = j then (data i).map fun e => { e with status := TaskStatus.failed }
    else data i

/-- A concrete prompts entry used by the counterexamples. -/
def mkEntry (deps : List Nat) (st : TaskStatus) : TaskEntry :=
  { prompt := "do the work", title := "a task", dependencies := deps, status := st }

/-- Concrete prompts data: task 1 has no dependencies, task 2 depends on
task 1, both `pending`; no other task keys are present. -/
def dataDep21 : Nat → Option TaskEntry :=
  fun i =>
    if i = 1 then some (mkEntry [] TaskStatus.pending)
    else if i = 2 then some (mkEntry [1] TaskStatus.pending)
    else none

/-- Concrete prompts data with a dependency cycle: task 1 depends on task 2
and task 2 depends on task 1. -/
def dataCycle : Nat → Option TaskEntry :=
  fun i =>
    if i = 1 then some (mkEntry [2] TaskStatus.pending)
    else if i = 2 then some (mkEntry [1] TaskStatus.pending)
    else none

/-- Concrete prompts data: task 1 is `failed`, task 2 depends on task 1. -/
def dataFailedDep : Nat → Option TaskEntry :=
  fun i =>
    if i = 1 then some (mkEntry [] TaskStatus.failed)
    else if i = 2 then some (mkEntry [1] TaskStatus.pending)
    else none

/-- Membership in the paste loop's dispatch list: a pair is dispatched iff
its task index is one of the keys 1..12, its task is present in the prompts
data, and its window id sits at 0-based index `task - 1` of the window
array. -/
theorem dispatch_mem_iff {data : Nat → Option TaskEntry} {ws : List Nat}
    {p : Nat × Nat} :
    p ∈ dispatchList data ws ↔
      p.1 ∈ taskKeys ∧ (data p.1).isSome = true ∧ ws[p.1 - 1]? = some p.2 := by
  unfold dispatchList
  rw [List.mem_filterMap]
  constructor
  · rintro ⟨i, hi, hf⟩
    cases hd : data i with
    | none => rw [hd] at hf; cases hf
    | some e =>
      rw [hd] at hf
      cases hw : ws[i - 1]? with
      | none => rw [hw] at hf; cases hf
      | some wid =>
        rw [hw] at hf
        cases hf
        exact ⟨hi, by simp [hd], by simp [hw]⟩
  · rintro ⟨h1, h2, h3⟩
    refine ⟨p.1, h1, ?_⟩
    obtain ⟨e, he⟩ := Option.isSome_iff_exists.mp h2
    rw [he, h3]

/-- Number of remaining iterations of the `keep_alive.sh` loop when
`1800 - 2 * n` is the current counter value. -/
theorem keepAliveIters_of_remaining (n : Nat) (h : n ≤ 900) :
    keepAliveIters (1800 - 2 * n) = n := by
  induction n with
  | zero => rw [keepAliveIters]; simp
  | succ m ih =>
    rw [keepAliveIters]
    have h1 : 1800 - 2 * (m + 1) < 1800 := by omega
    rw [if_pos h1]
    have h2 : 1800 - 2 * (m + 1) + 2 = 1800 - 2 * m := by omega
    rw [h2, ih (by omega)]

/-- C1, counterexample: with task 2 declaring task 1 as dependency and no
task completed (both `pending`), the paste loop still dispatches task 2 —
dispatch does not wait for dependencies to reach `completed`. -/
theorem dispatch_before_dependency_complete :
    (2, 102) ∈ dispatchList dataDep21 [101, 102] ∧
      1 ∈ depsOf dataDep21 2 ∧
      statusOf dataDep21 1 ≠ some TaskStatus.completed := by
  refine ⟨by decide, by decide, by decide⟩

/-- C1, amended: every task present in the prompts data whose window index
exists is dispatched by the paste loop, irrespective of its dependencies and
of any task's status — the loop never consults dependency or completion
state. -/
theorem dispatch_ignores_dependency_status
    (data : Nat → Option TaskEntry) (ws : List Nat) (i w : Nat)
    (h1 : i ∈ taskKeys) (h2 : (data i).isSome = true)
    (h3 : ws[i - 1]? = some w) :
    (i, w) ∈ dispatchList data ws :=
  dispatch_mem_iff.mpr ⟨h1, h2, h3⟩

/-- C1, witness: the amended theorem applied at the concrete run of
`dataDep21` with two windows. -/
theorem dispatch_ignores_dependency_status_witness :
    (2 ∈ taskKeys ∧ (dataDep21 2).isSome = true ∧
        ([101, 102] : List Nat)[2 - 1]? = some 102) ∧
      (2, 102) ∈ dispatchList dataDep21 [101, 102] :=
  ⟨⟨by decide, by decide, by decide⟩,
    dispatch_ignores_dependency_status dataDep21 [101, 102] 2 102
      (by decide) (by decide) (by decide)⟩

/-- C2, counterexample: a window whose session never responds receives a
keep-alive (restart/liveness) action on every one of the unbounded loop's
iterations: after `max_restarts + 1 = 6` iterations it has received 6
actions and is still being signalled — it is never excluded after exactly
`max_restarts` restarts, and no alert of any kind exists in the loop. -/
theorem keep_alive_exceeds_restart_budget :
    signalsAfter [1] (specMaxRestartsDefault + 1) 1 = 6 ∧
      specMaxRestartsDefault < signalsAfter [1] (specMaxRestartsDefault + 1) 1 := by
  refine ⟨by decide, by decide⟩

/-- C2, amended: the `keep-alive-orchestrator.sh` loop signals every captured
window on every iteration, without bound: after `k` iterations each captured
window has received exactly `k` keystrokes (and uncaptured windows none);
no restart count is kept, no window is ever excluded, and no HealthAlert is
emitted. -/
theorem keep_alive_signals_unbounded (windows : List Nat) (k w : Nat) :
    signalsAfter windows k w = if w ∈ windows then k else 0 := by
  induction k with
  | zero => simp [signalsAfter]
  | succ m ih =>
    by_cases h : w ∈ windows <;> simp [signalsAfter, signalStep, ih, h]

/-- C3, counterexample: window 1's agent has a current heartbeat
(`last_heartbeat = now = 100`, timeout 30), so it is not stale under the
spec's `is_stale` predicate, yet the `keep_alive.sh` iteration body issues
the liveness action to it anyway. -/
theorem liveness_action_on_fresh_agent :
    1 ∈ monitorActions 1 (fun _ => 100) 100 30 ∧
      specIsStale 100 ((fun _ => 100) 1) 30 = false := by
  refine ⟨by decide, by decide⟩

/-- C3, amended: the `keep_alive.sh` loop body issues its liveness action to
window `i` iff `i` is one of the indices 1..12 and the window is open
(`i <= windowCount`) — unconditionally with respect to heartbeats; the
scripts contain no staleness predicate at all. -/
theorem monitor_acts_unconditionally
    (windowCount : Nat) (lastHeartbeat : Nat → Nat) (now timeout i : Nat) :
    i ∈ monitorActions windowCount lastHeartbeat now timeout ↔
      i ∈ taskKeys ∧ i ≤ windowCount := by
  simp [monitorActions, monitorIteration, List.mem_filter]

/-- C4, counterexample: `dataCycle` has a dependency cycle (task 1 ↔ task 2),
yet the run accepts it without any error and dispatches both tasks — no
`CyclicDependencyError` exists and nothing fails before dispatch. -/
theorem cyclic_graph_accepted :
    hasCycle dataCycle = true ∧
      orchestrate (some (Except.ok dataCycle)) [101, 102] =
        RunResult.complete [(1, 101), (2, 102)] 2 := by
  refine ⟨by decide, by decide⟩

/-- C4, amended: the run performs no cycle check: even when the prompts data
contains a dependency cycle, the script proceeds to paste the present tasks
and reports completion instead of failing at construction. -/
theorem no_cycle_check_at_construction
    (data : Nat → Option TaskEntry) (ws : List Nat)
    (h : hasCycle data = true) :
    orchestrate (some (Except.ok data)) ws =
      RunResult.complete (dispatchList data ws) ws.length :=
  rfl

/-- C4, witness: the amended theorem applied to the concrete cyclic data. -/
theorem no_cycle_check_at_construction_witness :
    hasCycle dataCycle = true ∧
      orchestrate (some (Except.ok dataCycle)) [101, 102] =
        RunResult.complete (dispatchList dataCycle [101, 102])
          ([101, 102] : List Nat).length :=
  ⟨by decide, no_cycle_check_at_construction dataCycle [101, 102] (by decide)⟩

/-- C5, counterexample: a missing `tasks/prompts.json` is invalid
configuration detected at startup, but the script exits with code 1, not
with code 2. -/
theorem missing_config_exits_one_not_two :
    exitCode (orchestrate none []) = 1 ∧
      exitCode (orchestrate none []) ≠ 2 := by
  refine ⟨by decide, by decide⟩

/-- C5, amended: the script's exit code is 1 exactly when `prompts.json` is
missing or prompt extraction fails, and 0 otherwise — 0 is reached as soon
as the paste loop finishes, with no regard to task completion, and exit code
2 never occurs. -/
theorem exit_code_characterization
    (pf : Option (Except String (Nat → Option TaskEntry))) (ws : List Nat) :
    exitCode (orchestrate pf ws) =
      match pf with
      | some (Except.ok _) => 0
      | _ => 1 := by
  cases pf with
  | none => rfl
  | some e => cases e <;> rfl

/-- C6, counterexample: task 1 is `failed` and task 2 depends on it, yet the
paste loop dispatches task 2 anyway — a dependent of a failed task does not
remain pending/undispatched. -/
theorem dependent_of_failed_task_dispatched :
    statusOf dataFailedDep 1 = some TaskStatus.failed ∧
      1 ∈ depsOf dataFailedDep 2 ∧
      2 ∈ dispatchedTasks dataFailedDep [101, 102] := by
  refine ⟨by decide, by decide, by decide⟩

/-- C6, amended: a task's failure has no effect on dispatch: marking any
task `failed` leaves the paste loop's dispatch list unchanged, so dependents
of a failed task are dispatched exactly as before — the script tracks no
failure state and blocks nothing. -/
theorem failed_status_does_not_block_dispatch
    (data : Nat → Option TaskEntry) (j : Nat) (ws : List Nat) :
    dispatchList (markFailed data j) ws = dispatchList data ws := by
  unfold dispatchList
  apply List.filterMap_congr
  intro i _
  unfold markFailed
  by_cases h : i = j
  · subst h
    cases hd : data i <;> simp [hd]
  · simp [h]

/-- C7: each dispatched task is pasted into exactly one window and, when the
window ids are distinct (Terminal window ids are), each window receives at
most one task: two dispatch pairs agreeing on the task index or on the
window id are equal. -/
theorem no_double_assignment
    (data : Nat → Option TaskEntry) (ws : List Nat) (hw : ws.Nodup)
    (p q : Nat × Nat)
    (hp : p ∈ dispatchList data ws) (hq : q ∈ dispatchList data ws)
    (h : p.1 = q.1 ∨ p.2 = q.2) : p = q := by
  obtain ⟨hp1, hp2, hp3⟩ := dispatch_mem_iff.mp hp
  obtain ⟨hq1, hq2, hq3⟩ := dispatch_mem_iff.mp hq
  simp only [taskKeys, List.mem_range'_1] at hp1 hq1
  cases h with
  | inl h =>
    rw [h] at hp3
    rw [hp3] at hq3
    exact Prod.ext h (Option.some.inj hq3)
  | inr h =>
    have hlt : p.1 - 1 < ws.length := (List.getElem?_eq_some.mp hp3).1
    have heq : ws[p.1 - 1]? = ws[q.1 - 1]? := by
      rw [hp3, hq3, h]
    have hidx : p.1 - 1 = q.1 - 1 := List.getElem?_inj hlt hw heq
    have h1 : p.1 = q.1 := by omega
    rw [h1] at hp3
    rw [hp3] at hq3
    exact Prod.ext h1 (Option.some.inj hq3)

/-- C7, witness: the dispatch of `dataDep21` over two distinct windows,
with the theorem applied to the pair dispatched to task 2. -/
theorem no_double_assignment_witness :
    (([101, 102] : List Nat).Nodup ∧
        (2, 102) ∈ dispatchList dataDep21 [101, 102]) ∧
      ((2, 102) : Nat × Nat) = (2, 102) :=
  ⟨⟨by decide, by decide⟩,
    no_double_assignment dataDep21 [101, 102] (by decide) (2, 102) (2, 102)
      (by decide) (by decide) (Or.inl rfl)⟩

/-- C8, counterexample: the keep-alive loops poll on a hard-coded 2-second
interval, not on the configured `health_check_interval` whose default the
spec fixes at 10 seconds. -/
theorem poll_interval_two_not_ten :
    keepAliveSleepInterval = 2 ∧
      keepAliveSleepInterval ≠ specHealthCheckIntervalDefault := by
  refine ⟨by decide, by decide⟩

/-- C8, amended: the keep-alive loop's polling cadence is the hard-coded
2 seconds per iteration: after `k` iterations, `2 * k` seconds of sleep have
elapsed; no configuration value enters. -/
theorem keep_alive_poll_cadence (k : Nat) :
    keepAliveElapsed k = keepAliveSleepInterval * k := by
  induction k with
  | zero => rfl
  | succ m ih =>
    simp [keepAliveElapsed, ih, keepAliveSleepInterval]
    omega

/-- C9: when fewer windows are open than tasks, every present task whose
1-based index exceeds the window count is never dispatched, is reported as
skipped for lack of a window, and the run nevertheless reaches the
"ORCHESTRATION COMPLETE" report. -/
theorem excess_tasks_skipped_forever
    (data : Nat → Option TaskEntry) (ws : List Nat) (i : Nat)
    (h1 : i ∈ taskKeys) (h2 : (data i).isSome = true)
    (h3 : ws.length < i) :
    i ∉ dispatchedTasks data ws ∧
      i ∈ skippedNoWindow data ws ∧
      reportsComplete (orchestrate (some (Except.ok data)) ws) = true := by
  have hbounds : 1 ≤ i ∧ i < 13 := by
    simpa [taskKeys, List.mem_range'_1] using h1
  refine ⟨?_, ?_, rfl⟩
  · intro hmem
    obtain ⟨p, hp, hfst⟩ := List.mem_map.mp hmem
    obtain ⟨_, _, hp3⟩ := dispatch_mem_iff.mp hp
    have hlt : p.1 - 1 < ws.length := (List.getElem?_eq_some.mp hp3).1
    omega
  · rw [skippedNoWindow, List.mem_filter]
    refine ⟨h1, ?_⟩
    simp only [h2, Bool.true_and, decide_eq_true_eq]
    omega

/-- C9, witness: with two tasks present and a single window, task 2 is
skipped for good while the run still reports completion. -/
theorem excess_tasks_skipped_forever_witness :
    (2 ∈ taskKeys ∧ (dataDep21 2).isSome = true ∧
        ([101] : List Nat).length < 2) ∧
      (2 ∉ dispatchedTasks dataDep21 [101] ∧
        2 ∈ skippedNoWindow dataDep21 [101] ∧
        reportsComplete (orchestrate (some (Except.ok dataDep21)) [101]) = true) :=
  ⟨⟨by decide, by decide, by decide⟩,
    excess_tasks_skipped_forever dataDep21 [101] 2
      (by decide) (by decide) (by decide)⟩

/-- C10: the 30-minute keep-alive monitor terminates after exactly 900
supervision rounds: starting from counter 0, stepping by 2 while the counter
stays below 1800 yields exactly 900 iterations. -/
theorem keep_alive_monitor_rounds : keepAliveIters 0 = 900 := by
  have h := keepAliveIters_of_remaining 900 (by omega)
  simpa using h
